import Mathlib

/-!
Shallow embedding of the raw-mode TTY guard library (src/src/lib.rs).

The device and its operating system are modelled by an explicit state
`Sys` holding the device's live termios attributes, flags saying whether
the two ioctl-style calls succeed, the most-recent-error value, and a
log of the externally visible events (every attempted attribute write,
and the release of the wrapped inner resource).  Each library operation
is translated into a state-passing function that mirrors the Rust code
line by line; `Drop` implementations become explicit `drop` functions
returning the new state together with a flag telling whether the drop
panicked (the source restores with `.unwrap()`).

The model tracks a single device: `fd` arguments are kept for structural
fidelity with the source but all calls act on the one modelled device,
matching the per-handle quantification of the specification.
-/

set_option linter.unusedVariables false

namespace RawTty

/-- The fields of libc `termios` that the library reads or writes:
the four flag words and the `VMIN` / `VTIME` control characters. -/
structure Termios where
  c_iflag : Nat
  c_oflag : Nat
  c_cflag : Nat
  c_lflag : Nat
  c_vmin : Nat
  c_vtime : Nat
deriving DecidableEq

/-- The single error kind: `io::Error::last_os_error()`, carrying the
platform's most-recent-error value. -/
structure OsError where
  errno : Int
deriving DecidableEq

/-- `util::IsMinusOne::is_minus_one`: the macro implements the same body,
comparison of the signed value with the literal `-1`, for each of
`i8 i16 i32 i64 isize`; the model works over the common signed value. -/
def is_minus_one (t : Int) : Bool :=
  t == -1

/-- `util::convert_to_result`: translate the sentinel into the
most-recent-error, pass every other value through unchanged. -/
def convert_to_result (lastErr : Int) (t : Int) : Except OsError Int :=
  if is_minus_one t then Except.error ⟨lastErr⟩ else Except.ok t

/-- Externally visible events of the model: each attempted attribute
write (with the value written and whether the call succeeded) and the
release of the wrapped inner resource. -/
inductive Ev where
  | setAttr (t : Termios) (ok : Bool)
  | dropInner
deriving DecidableEq

/-- The modelled device / OS state. `getOk` tells whether `tcgetattr`
succeeds, `setOk t` whether `tcsetattr` with value `t` succeeds, and
`errno` is the most-recent-error a failing call reports. -/
structure Sys where
  live : Termios
  getOk : Bool
  setOk : Termios → Bool
  errno : Int
  log : List Ev

/-- A zero-initialized `termios`, the `mem::zeroed()` starting buffer. -/
def zeroedTermios : Termios :=
  ⟨0, 0, 0, 0, 0, 0⟩

/-- The raw libc call `tcgetattr`: returns `0` and fills the buffer on
success, returns `-1` on failure. -/
def tcgetattr (s : Sys) : Int × Termios :=
  if s.getOk then (0, s.live) else (-1, zeroedTermios)

/-- The raw libc call `tcsetattr`: the attempt is logged, and on success
the device's live attributes are fully replaced by the written value. -/
def tcsetattr (s : Sys) (t : Termios) : Sys × Int :=
  if s.setOk t then
    ({ s with live := t, log := s.log ++ [Ev.setAttr t true] }, 0)
  else
    ({ s with log := s.log ++ [Ev.setAttr t false] }, -1)

/-- `attr::unix::get_terminal_attr`: run `tcgetattr` and push the result
through `convert_to_result`. -/
def get_terminal_attr (fd : Int) (s : Sys) : Sys × Except OsError Termios :=
  let p := tcgetattr s
  match convert_to_result s.errno p.1 with
  | Except.error e => (s, Except.error e)
  | Except.ok _ => (s, Except.ok p.2)

/-- `attr::unix::set_terminal_attr`: run `tcsetattr` and push the result
through `convert_to_result`, discarding the integer on success. -/
def set_terminal_attr (fd : Int) (t : Termios) (s : Sys) : Sys × Except OsError Unit :=
  let p := tcsetattr s t
  match convert_to_result p.1.errno p.2 with
  | Except.error e => (p.1, Except.error e)
  | Except.ok _ => (p.1, Except.ok ())

/-- Linux `termios` input-flag constants used by `cfmakeraw`. -/
def IGNBRK : Nat := 1
def BRKINT : Nat := 2
def PARMRK : Nat := 8
def ISTRIP : Nat := 32
def INLCR : Nat := 64
def IGNCR : Nat := 128
def ICRNL : Nat := 256
def IXON : Nat := 1024
def OPOST : Nat := 1
def ECHO : Nat := 8
def ECHONL : Nat := 64
def ICANON : Nat := 2
def ISIG : Nat := 1
def IEXTEN : Nat := 32768
def CSIZE : Nat := 48
def PARENB : Nat := 256
def CS8 : Nat := 48

/-- Bitwise complement of a mask within a 32-bit flag word, the C
expression `~mask` at type `tcflag_t`. -/
def NOT32 (m : Nat) : Nat :=
  2 ^ 32 - 1 - m

/-- Modelled from the spec: the libc `cfmakeraw` called by
`attr::unix::raw_terminal_attr` lives outside this repository.  Per the
spec it disables canonical input, local echo, signal characters, output
post-processing, input parity and stripping, and sets `VMIN = 1`,
`VTIME = 0`; the flag manipulation follows the standard C library
definition of `cfmakeraw` on those flag words. -/
def cfmakeraw (t : Termios) : Termios :=
  { c_iflag := t.c_iflag &&&
      NOT32 (IGNBRK ||| BRKINT ||| PARMRK ||| ISTRIP ||| INLCR ||| IGNCR ||| ICRNL ||| IXON)
    c_oflag := t.c_oflag &&& NOT32 OPOST
    c_cflag := (t.c_cflag &&& NOT32 (CSIZE ||| PARENB)) ||| CS8
    c_lflag := t.c_lflag &&& NOT32 (ECHO ||| ECHONL ||| ICANON ||| ISIG ||| IEXTEN)
    c_vmin := 1
    c_vtime := 0 }

/-- `attr::unix::raw_terminal_attr`: apply `cfmakeraw` to the buffer;
the in-place C mutation becomes a pure value transformation. -/
def raw_terminal_attr (t : Termios) : Termios :=
  cfmakeraw t

/-- `TtyModeGuard`: the original attributes captured at construction and
the device handle they came from. -/
structure TtyModeGuard where
  ios : Termios
  fd : Int
deriving DecidableEq

/-- `TtyModeGuard::new`: read the current attributes (propagating
failure) and store them together with the handle.  No write happens. -/
def TtyModeGuard.new (fd : Int) (s : Sys) : Sys × Except OsError TtyModeGuard :=
  match get_terminal_attr fd s with
  | (s1, Except.error e) => (s1, Except.error e)
  | (s1, Except.ok ios) => (s1, Except.ok ⟨ios, fd⟩)

/-- `TtyModeGuard::set_raw_mode`: copy the stored original, make it raw,
write it.  The guard itself (`&mut self` in the source) is returned so
that the theorems can state that its fields never change. -/
def TtyModeGuard.set_raw_mode (g : TtyModeGuard) (s : Sys) :
    TtyModeGuard × Sys × Except OsError Unit :=
  let ios := raw_terminal_attr g.ios
  match set_terminal_attr g.fd ios s with
  | (s1, Except.error e) => (g, s1, Except.error e)
  | (s1, Except.ok _) => (g, s1, Except.ok ())

/-- `TtyModeGuard::modify_mode`: apply the caller's transform to the
stored original and write the result. -/
def TtyModeGuard.modify_mode (g : TtyModeGuard) (f : Termios → Termios) (s : Sys) :
    TtyModeGuard × Sys × Except OsError Unit :=
  let ios := f g.ios
  match set_terminal_attr g.fd ios s with
  | (s1, Except.error e) => (g, s1, Except.error e)
  | (s1, Except.ok _) => (g, s1, Except.ok ())

/-- `impl Drop for TtyModeGuard`: write the stored original back and
`.unwrap()` the result.  The returned flag is true when the drop
panicked, i.e. when the restore write failed. -/
def TtyModeGuard.drop (g : TtyModeGuard) (s : Sys) : Sys × Bool :=
  match set_terminal_attr g.fd g.ios s with
  | (s1, Except.error _) => (s1, true)
  | (s1, Except.ok _) => (s1, false)

/-- A client-visible mode-switch call on a guard: either
`set_raw_mode()` or `modify_mode(f)`. -/
inductive Op where
  | raw
  | modify (f : Termios → Termios)

/-- Run a sequence of mode-switch calls on a guard, threading the device
state; result values are discarded as a caller free to ignore them
would. -/
def TtyModeGuard.runOps (g : TtyModeGuard) (s : Sys) : List Op → TtyModeGuard × Sys
  | [] => (g, s)
  | Op.raw :: ops =>
    let r := g.set_raw_mode s
    TtyModeGuard.runOps r.1 r.2.1 ops
  | Op.modify f :: ops =>
    let r := g.modify_mode f s
    TtyModeGuard.runOps r.1 r.2.1 ops

/-- `TtyWithGuard<T>`: an owned terminal resource together with the mode
guard for its handle.  The `ManuallyDrop` wrappers of the source only
control drop order, which the explicit `drop` function below encodes. -/
structure TtyWithGuard (T : Type) where
  inner : T
  guard : TtyModeGuard

/-- `TtyWithGuard::new`: build the guard from the resource's handle
(`as_raw_fd`, modelled by `fdOf`), propagating failure, then take
ownership of the resource. -/
def TtyWithGuard.new {T : Type} (fdOf : T → Int) (tty : T) (s : Sys) :
    Sys × Except OsError (TtyWithGuard T) :=
  match TtyModeGuard.new (fdOf tty) s with
  | (s1, Except.error e) => (s1, Except.error e)
  | (s1, Except.ok g) => (s1, Except.ok ⟨tty, g⟩)

/-- `TtyWithGuard::set_raw_mode`: forwarded to the internal guard. -/
def TtyWithGuard.set_raw_mode {T : Type} (w : TtyWithGuard T) (s : Sys) :
    TtyWithGuard T × Sys × Except OsError Unit :=
  let r := w.guard.set_raw_mode s
  ({ w with guard := r.1 }, r.2.1, r.2.2)

/-- `TtyWithGuard::modify_mode`: forwarded to the internal guard. -/
def TtyWithGuard.modify_mode {T : Type} (w : TtyWithGuard T) (f : Termios → Termios) (s : Sys) :
    TtyWithGuard T × Sys × Except OsError Unit :=
  let r := w.guard.modify_mode f s
  ({ w with guard := r.1 }, r.2.1, r.2.2)

/-- `impl Drop for TtyWithGuard`: drop the guard first, then the inner
resource (logged as `Ev.dropInner`).  If the guard's drop panics the
unwinding skips the inner `ManuallyDrop`, so no `dropInner` event is
emitted in that case. -/
def TtyWithGuard.drop {T : Type} (w : TtyWithGuard T) (s : Sys) : Sys × Bool :=
  let r := TtyModeGuard.drop w.guard s
  if r.2 then (r.1, true)
  else ({ r.1 with log := r.1.log ++ [Ev.dropInner] }, false)

/-- `GuardMode::guard_mode`, the blanket capability: just
`TtyWithGuard::new`. -/
def guard_mode {T : Type} (fdOf : T → Int) (tty : T) (s : Sys) :
    Sys × Except OsError (TtyWithGuard T) :=
  TtyWithGuard.new fdOf tty s

/-- Outcome of a call that may drop a guard on its error path: normal
success, a returned error, or a panic escaping the call. -/
inductive RunResult (α : Type) where
  | ok (a : α)
  | err (e : OsError)
  | panicked

/-- `IntoRawMode::into_raw_mode`: guard the resource, then switch to raw
mode; on failure of the raw write the partially-constructed wrapper is
dropped (running the guard's restore) before the error is returned. -/
def into_raw_mode {T : Type} (fdOf : T → Int) (tty : T) (s : Sys) :
    Sys × RunResult (TtyWithGuard T) :=
  match TtyWithGuard.new fdOf tty s with
  | (s1, Except.error e) => (s1, RunResult.err e)
  | (s1, Except.ok x) =>
    match TtyWithGuard.set_raw_mode x s1 with
    | (x1, s2, Except.ok _) => (s2, RunResult.ok x1)
    | (x1, s2, Except.error e) =>
      let r := TtyWithGuard.drop x1 s2
      (r.1, if r.2 then RunResult.panicked else RunResult.err e)

/-! Characterization lemmas: each operation rewritten as a plain
conditional on the success flags of the modelled device. -/

theorem get_terminal_attr_eq (fd : Int) (s : Sys) :
    get_terminal_attr fd s =
      if s.getOk then (s, Except.ok s.live) else (s, Except.error ⟨s.errno⟩) := by
  by_cases h : s.getOk <;>
    simp [get_terminal_attr, tcgetattr, convert_to_result, is_minus_one, h]

theorem set_terminal_attr_eq (fd : Int) (t : Termios) (s : Sys) :
    set_terminal_attr fd t s =
      if s.setOk t then
        ({ s with live := t, log := s.log ++ [Ev.setAttr t true] }, Except.ok ())
      else
        ({ s with log := s.log ++ [Ev.setAttr t false] }, Except.error ⟨s.errno⟩) := by
  by_cases h : s.setOk t <;>
    simp [set_terminal_attr, tcsetattr, convert_to_result, is_minus_one, h]

theorem TtyModeGuard.new_eq (fd : Int) (s : Sys) :
    TtyModeGuard.new fd s =
      if s.getOk then (s, Except.ok ⟨s.live, fd⟩) else (s, Except.error ⟨s.errno⟩) := by
  by_cases h : s.getOk <;>
    simp [TtyModeGuard.new, get_terminal_attr_eq, h]

theorem TtyModeGuard.set_raw_mode_eq (g : TtyModeGuard) (s : Sys) :
    g.set_raw_mode s =
      if s.setOk (raw_terminal_attr g.ios) then
        (g, { s with live := raw_terminal_attr g.ios,
                     log := s.log ++ [Ev.setAttr (raw_terminal_attr g.ios) true] },
         Except.ok ())
      else
        (g, { s with log := s.log ++ [Ev.setAttr (raw_terminal_attr g.ios) false] },
         Except.error ⟨s.errno⟩) := by
  by_cases h : s.setOk (raw_terminal_attr g.ios) <;>
    simp [TtyModeGuard.set_raw_mode, set_terminal_attr_eq, h]

theorem TtyModeGuard.modify_mode_eq (g : TtyModeGuard) (f : Termios → Termios) (s : Sys) :
    g.modify_mode f s =
      if s.setOk (f g.ios) then
        (g, { s with live := f g.ios, log := s.log ++ [Ev.setAttr (f g.ios) true] },
         Except.ok ())
      else
        (g, { s with log := s.log ++ [Ev.setAttr (f g.ios) false] },
         Except.error ⟨s.errno⟩) := by
  by_cases h : s.setOk (f g.ios) <;>
    simp [TtyModeGuard.modify_mode, set_terminal_attr_eq, h]

theorem TtyModeGuard.drop_eq (g : TtyModeGuard) (s : Sys) :
    g.drop s =
      if s.setOk g.ios then
        ({ s with live := g.ios, log := s.log ++ [Ev.setAttr g.ios true] }, false)
      else
        ({ s with log := s.log ++ [Ev.setAttr g.ios false] }, true) := by
  by_cases h : s.setOk g.ios <;>
    simp [TtyModeGuard.drop, set_terminal_attr_eq, h]

theorem TtyModeGuard.set_raw_mode_fst (g : TtyModeGuard) (s : Sys) :
    (g.set_raw_mode s).1 = g := by
  by_cases h : s.setOk (raw_terminal_attr g.ios) <;>
    simp [TtyModeGuard.set_raw_mode_eq, h]

theorem TtyModeGuard.modify_mode_fst (g : TtyModeGuard) (f : Termios → Termios) (s : Sys) :
    (g.modify_mode f s).1 = g := by
  by_cases h : s.setOk (f g.ios) <;>
    simp [TtyModeGuard.modify_mode_eq, h]

theorem TtyModeGuard.set_raw_mode_cfg (g : TtyModeGuard) (s : Sys) :
    (g.set_raw_mode s).2.1.getOk = s.getOk ∧
    (g.set_raw_mode s).2.1.setOk = s.setOk ∧
    (g.set_raw_mode s).2.1.errno = s.errno := by
  by_cases h : s.setOk (raw_terminal_attr g.ios) <;>
    simp [TtyModeGuard.set_raw_mode_eq, h]

theorem TtyModeGuard.modify_mode_cfg (g : TtyModeGuard) (f : Termios → Termios) (s : Sys) :
    (g.modify_mode f s).2.1.getOk = s.getOk ∧
    (g.modify_mode f s).2.1.setOk = s.setOk ∧
    (g.modify_mode f s).2.1.errno = s.errno := by
  by_cases h : s.setOk (f g.ios) <;>
    simp [TtyModeGuard.modify_mode_eq, h]

/-- A sequence of mode-switch calls never touches the guard: only the
device state changes. -/
theorem TtyModeGuard.runOps_guard (g : TtyModeGuard) (s : Sys) (ops : List Op) :
    (g.runOps s ops).1 = g := by
  induction ops generalizing g s with
  | nil => rfl
  | cons op ops ih =>
    cases op with
    | raw =>
      simp only [TtyModeGuard.runOps]
      rw [ih, TtyModeGuard.set_raw_mode_fst]
    | modify f =>
      simp only [TtyModeGuard.runOps]
      rw [ih, TtyModeGuard.modify_mode_fst]

/-- Mode-switch calls leave the modelled OS configuration (which calls
succeed, the error value) untouched. -/
theorem TtyModeGuard.runOps_cfg (g : TtyModeGuard) (s : Sys) (ops : List Op) :
    (g.runOps s ops).2.getOk = s.getOk ∧
    (g.runOps s ops).2.setOk = s.setOk ∧
    (g.runOps s ops).2.errno = s.errno := by
  induction ops generalizing g s with
  | nil => exact ⟨rfl, rfl, rfl⟩
  | cons op ops ih =>
    cases op with
    | raw =>
      simp only [TtyModeGuard.runOps]
      obtain ⟨h1, h2, h3⟩ := ih (g.set_raw_mode s).1 (g.set_raw_mode s).2.1
      obtain ⟨k1, k2, k3⟩ := TtyModeGuard.set_raw_mode_cfg g s
      exact ⟨h1.trans k1, h2.trans k2, h3.trans k3⟩
    | modify f =>
      simp only [TtyModeGuard.runOps]
      obtain ⟨h1, h2, h3⟩ := ih (g.modify_mode f s).1 (g.modify_mode f s).2.1
      obtain ⟨k1, k2, k3⟩ := TtyModeGuard.modify_mode_cfg g f s
      exact ⟨h1.trans k1, h2.trans k2, h3.trans k3⟩

/-! Bitwise helper lemmas for the idempotence of `cfmakeraw`. -/

theorem land_land (x m : Nat) : x &&& m &&& m = x &&& m := by
  apply Nat.eq_of_testBit_eq
  intro i
  simp [Nat.testBit_land, Bool.and_assoc]

theorem lor_land_of_land_zero (x b m : Nat) (h : b &&& m = 0) :
    (x ||| b) &&& m = x &&& m := by
  apply Nat.eq_of_testBit_eq
  intro i
  have hb : (b &&& m).testBit i = false := by
    rw [h]; exact Nat.zero_testBit i
  rw [Nat.testBit_land] at hb
  rw [Nat.testBit_land, Nat.testBit_lor, Nat.testBit_land]
  cases hx : x.testBit i <;> cases hm : m.testBit i <;>
    simp_all

/-- C9: the raw-derivation transformation is a pure function of its
argument (it is a Lean function, performing no I/O and signalling no
failure) and it is idempotent: deriving raw attributes from an
already-derived value changes nothing. -/
theorem c9_raw_derivation_idempotent (t : Termios) :
    cfmakeraw (cfmakeraw t) = cfmakeraw t := by
  have h48 : CS8 &&& NOT32 (CSIZE ||| PARENB) = 0 := by decide
  simp only [cfmakeraw, Termios.mk.injEq]
  refine ⟨land_land .., land_land .., ?_, land_land .., trivial, trivial⟩
  rw [lor_land_of_land_zero _ _ _ h48, land_land]

/-- C8: every integer result of the two I/O primitives is checked
against the single sentinel `-1`; the conversion returns the
most-recent-error exactly when the input is `-1` and passes every other
value through unchanged as success. -/
theorem c8_sentinel_conversion (lastErr t : Int) :
    (convert_to_result lastErr t = Except.error ⟨lastErr⟩ ↔ t = -1) ∧
    (t ≠ -1 → convert_to_result lastErr t = Except.ok t) := by
  by_cases h : t = -1 <;>
    simp [convert_to_result, is_minus_one, h]

/-- C8 witness: the conversion at the sentinel and at an ordinary
success value. -/
theorem c8_sentinel_conversion_witness :
    (convert_to_result 5 (-1) = Except.error ⟨5⟩ ↔ (-1 : Int) = -1) ∧
    ((7 : Int) ≠ -1 → convert_to_result 5 7 = Except.ok 7) :=
  ⟨(c8_sentinel_conversion 5 (-1)).1, (c8_sentinel_conversion 5 7).2⟩

/-- C7: releasing a guard panics exactly when the restore write fails;
a failed restoration is never silently swallowed into normal
continuation. -/
theorem c7_restore_failure_panics (g : TtyModeGuard) (s : Sys) :
    (g.drop s).2 = true ↔ s.setOk g.ios = false := by
  by_cases h : s.setOk g.ios <;>
    simp [TtyModeGuard.drop_eq, h]

/-- C5: neither `set_raw_mode` nor `modify_mode` changes the guard's
stored original attributes or its stored handle. -/
theorem c5_guard_fields_frozen (g : TtyModeGuard) (f : Termios → Termios) (s : Sys) :
    (g.set_raw_mode s).1.ios = g.ios ∧ (g.set_raw_mode s).1.fd = g.fd ∧
    (g.modify_mode f s).1.ios = g.ios ∧ (g.modify_mode f s).1.fd = g.fd := by
  simp [TtyModeGuard.set_raw_mode_fst, TtyModeGuard.modify_mode_fst]

/-- C3: every `set_raw_mode` call writes `raw_terminal_attr` of the
stored original — a value computed without consulting the live device
state — so two consecutive calls log two writes of the one same value,
the guard is untouched, and on success the device holds that value. -/
theorem c3_set_raw_mode_from_original (g : TtyModeGuard) (s : Sys) :
    (g.set_raw_mode s).2.1.log =
      s.log ++ [Ev.setAttr (raw_terminal_attr g.ios)
                  (s.setOk (raw_terminal_attr g.ios))] ∧
    (g.set_raw_mode s).2.1.live =
      (if s.setOk (raw_terminal_attr g.ios) then raw_terminal_attr g.ios else s.live) ∧
    ((g.set_raw_mode s).1.set_raw_mode (g.set_raw_mode s).2.1).2.1.log =
      s.log ++ [Ev.setAttr (raw_terminal_attr g.ios) (s.setOk (raw_terminal_attr g.ios)),
                Ev.setAttr (raw_terminal_attr g.ios) (s.setOk (raw_terminal_attr g.ios))] := by
  by_cases h : s.setOk (raw_terminal_attr g.ios) <;>
    simp [TtyModeGuard.set_raw_mode_eq, h]

/-- C1: after constructing a guard and running any sequence of
`set_raw_mode` / `modify_mode` calls, releasing the guard logs exactly
one write, of the attributes captured at construction (the live value
observed immediately before construction), and when that restore write
succeeds the device's live attributes equal those original attributes
and the drop does not panic. -/
theorem c1_restore_fidelity (s s1 : Sys) (fd : Int) (g : TtyModeGuard) (ops : List Op)
    (hnew : TtyModeGuard.new fd s = (s1, Except.ok g))
    (hset : s.setOk s.live = true) :
    ((g.runOps s1 ops).1.drop (g.runOps s1 ops).2).1.log
        = (g.runOps s1 ops).2.log ++ [Ev.setAttr s.live true] ∧
    ((g.runOps s1 ops).1.drop (g.runOps s1 ops).2).1.live = s.live ∧
    ((g.runOps s1 ops).1.drop (g.runOps s1 ops).2).2 = false := by
  rw [TtyModeGuard.new_eq] at hnew
  by_cases hg : s.getOk
  · rw [if_pos hg] at hnew
    simp only [Prod.mk.injEq, Except.ok.injEq] at hnew
    obtain ⟨rfl, rfl⟩ := hnew
    have hr1 := TtyModeGuard.runOps_guard ⟨s.live, fd⟩ s ops
    have hr2 := (TtyModeGuard.runOps_cfg ⟨s.live, fd⟩ s ops).2.1
    rw [hr1, TtyModeGuard.drop_eq, hr2]
    simp [hset]
  · rw [if_neg hg] at hnew
    simp at hnew

/-- C1 witness: a valid device with all writes succeeding, one raw
switch before release. -/
def sW : Sys :=
  { live := zeroedTermios, getOk := true, setOk := fun _ => true, errno := 0, log := [] }

def gW : TtyModeGuard :=
  { ios := zeroedTermios, fd := 0 }

theorem c1_restore_fidelity_witness :
    TtyModeGuard.new 0 sW = (sW, Except.ok gW) ∧ sW.setOk sW.live = true ∧
    (((gW.runOps sW [Op.raw]).1.drop (gW.runOps sW [Op.raw]).2).1.log
        = (gW.runOps sW [Op.raw]).2.log ++ [Ev.setAttr sW.live true] ∧
     ((gW.runOps sW [Op.raw]).1.drop (gW.runOps sW [Op.raw]).2).1.live = sW.live ∧
     ((gW.runOps sW [Op.raw]).1.drop (gW.runOps sW [Op.raw]).2).2 = false) :=
  ⟨rfl, rfl, c1_restore_fidelity sW sW 0 gW [Op.raw] rfl rfl⟩

/-- C2: `modify_mode f` then `modify_mode k` writes `k` applied to the
attributes captured at construction, never `k (f original)`: the second
write's logged value is `k s.live` and, its write succeeding, the device
ends at `k s.live`. -/
theorem c2_noncumulative_transforms (s s1 : Sys) (fd : Int) (gd : TtyModeGuard)
    (f k : Termios → Termios)
    (hnew : TtyModeGuard.new fd s = (s1, Except.ok gd))
    (hk : s.setOk (k s.live) = true) :
    ((gd.modify_mode f s1).1.modify_mode k (gd.modify_mode f s1).2.1).2.1.live = k s.live ∧
    ((gd.modify_mode f s1).1.modify_mode k (gd.modify_mode f s1).2.1).2.1.log =
      s.log ++ [Ev.setAttr (f s.live) (s.setOk (f s.live)),
                Ev.setAttr (k s.live) true] := by
  rw [TtyModeGuard.new_eq] at hnew
  by_cases hg : s.getOk
  · rw [if_pos hg] at hnew
    simp only [Prod.mk.injEq, Except.ok.injEq] at hnew
    obtain ⟨rfl, rfl⟩ := hnew
    by_cases hf : s.setOk (f s.live) <;>
      simp [TtyModeGuard.modify_mode_eq, hf, hk]
  · rw [if_neg hg] at hnew
    simp at hnew

/-- C2 witness: two concrete transforms on a fully-working device. -/
def fW : Termios → Termios := fun t => { t with c_vmin := 5 }

def kW : Termios → Termios := fun t => { t with c_vtime := 9 }

theorem c2_noncumulative_transforms_witness :
    TtyModeGuard.new 0 sW = (sW, Except.ok gW) ∧ sW.setOk (kW sW.live) = true ∧
    (((gW.modify_mode fW sW).1.modify_mode kW (gW.modify_mode fW sW).2.1).2.1.live
        = kW sW.live ∧
     ((gW.modify_mode fW sW).1.modify_mode kW (gW.modify_mode fW sW).2.1).2.1.log =
       sW.log ++ [Ev.setAttr (fW sW.live) (sW.setOk (fW sW.live)),
                  Ev.setAttr (kW sW.live) true]) :=
  ⟨rfl, rfl, c2_noncumulative_transforms sW sW 0 gW fW kW rfl rfl⟩

/-- C4: over a handle whose attribute read fails, constructing a bare
guard, a guarded wrapper, or going through `into_raw_mode` all return
the `OsError` and leave the device state — including the write log —
exactly as it was: no write is attempted. -/
theorem c4_invalid_handle_no_write {T : Type} (fdOf : T → Int) (tty : T) (fd : Int) (s : Sys)
    (hget : s.getOk = false) :
    TtyModeGuard.new fd s = (s, Except.error ⟨s.errno⟩) ∧
    guard_mode fdOf tty s = (s, Except.error ⟨s.errno⟩) ∧
    into_raw_mode fdOf tty s = (s, RunResult.err ⟨s.errno⟩) := by
  simp [TtyModeGuard.new_eq, hget, guard_mode, TtyWithGuard.new, into_raw_mode]

/-- C4 witness: a device whose attribute read fails. -/
def sBad : Sys :=
  { live := zeroedTermios, getOk := false, setOk := fun _ => true, errno := 3, log := [] }

theorem c4_invalid_handle_no_write_witness :
    sBad.getOk = false ∧
    (TtyModeGuard.new 0 sBad = (sBad, Except.error ⟨sBad.errno⟩) ∧
     guard_mode (fun _ => 0) () sBad = (sBad, Except.error ⟨sBad.errno⟩) ∧
     into_raw_mode (fun _ => 0) () sBad = (sBad, RunResult.err ⟨sBad.errno⟩)) :=
  ⟨rfl, c4_invalid_handle_no_write (fun _ => 0) () 0 sBad rfl⟩

/-- C6: releasing a wrapper performs the two teardown steps in the fixed
order guard-first: the log gains the guard's restore write and only then
the release of the inner resource. -/
theorem c6_teardown_order {T : Type} (w : TtyWithGuard T) (s : Sys)
    (hset : s.setOk w.guard.ios = true) :
    (w.drop s).1.log = s.log ++ [Ev.setAttr w.guard.ios true, Ev.dropInner] ∧
    (w.drop s).2 = false := by
  simp [TtyWithGuard.drop, TtyModeGuard.drop_eq, hset]

/-- C6 witness: a unit resource wrapped with the witness guard. -/
def wW : TtyWithGuard Unit :=
  ⟨(), gW⟩

theorem c6_teardown_order_witness :
    sW.setOk wW.guard.ios = true ∧
    ((wW.drop sW).1.log = sW.log ++ [Ev.setAttr wW.guard.ios true, Ev.dropInner] ∧
     (wW.drop sW).2 = false) :=
  ⟨rfl, c6_teardown_order wW sW rfl⟩

/-- C10: when the initial capture succeeds but the raw-mode write fails,
`into_raw_mode` drops the partially-constructed wrapper: a restore write
of the captured original attributes is attempted right after the failed
raw write, and when that restore succeeds the inner resource is released
and the original `OsError` is returned with the device back at its
original attributes. -/
theorem c10_failed_raw_write_restores {T : Type} (fdOf : T → Int) (tty : T) (s : Sys)
    (hget : s.getOk = true)
    (hraw : s.setOk (raw_terminal_attr s.live) = false) :
    (into_raw_mode fdOf tty s).1.log =
      s.log ++ [Ev.setAttr (raw_terminal_attr s.live) false,
                Ev.setAttr s.live (s.setOk s.live)] ++
        (if s.setOk s.live = true then [Ev.dropInner] else []) ∧
    (s.setOk s.live = true →
      into_raw_mode fdOf tty s =
        ({ s with log := s.log ++ [Ev.setAttr (raw_terminal_attr s.live) false,
                                   Ev.setAttr s.live true, Ev.dropInner] },
         RunResult.err ⟨s.errno⟩)) := by
  by_cases hso : s.setOk s.live <;>
    simp [into_raw_mode, TtyWithGuard.new, TtyModeGuard.new_eq, hget,
      TtyWithGuard.set_raw_mode, TtyModeGuard.set_raw_mode_eq, hraw,
      TtyWithGuard.drop, TtyModeGuard.drop_eq, hso]

/-- C10 witness: a device that accepts only its current (original)
attributes, so the raw write fails and the restore write succeeds. -/
def sRawFail : Sys :=
  { live := zeroedTermios, getOk := true,
    setOk := fun t => decide (t = zeroedTermios), errno := 7, log := [] }

theorem c10_failed_raw_write_restores_witness :
    sRawFail.getOk = true ∧
    sRawFail.setOk (raw_terminal_attr sRawFail.live) = false ∧
    ((into_raw_mode (fun _ => 0) () sRawFail).1.log =
       sRawFail.log ++ [Ev.setAttr (raw_terminal_attr sRawFail.live) false,
                        Ev.setAttr sRawFail.live (sRawFail.setOk sRawFail.live)] ++
         (if sRawFail.setOk sRawFail.live = true then [Ev.dropInner] else []) ∧
     (sRawFail.setOk sRawFail.live = true →
       into_raw_mode (fun _ => 0) () sRawFail =
         ({ sRawFail with
              log := sRawFail.log ++ [Ev.setAttr (raw_terminal_attr sRawFail.live) false,
                                      Ev.setAttr sRawFail.live true, Ev.dropInner] },
          RunResult.err ⟨sRawFail.errno⟩))) :=
  ⟨rfl, by decide, c10_failed_raw_write_restores (fun _ => 0) () sRawFail rfl (by decide)⟩

end RawTty
